import Mathlib

/-!
Shallow embedding of the multimodal fusion/session core of the
In-Vehicle-Multimodal-Interaction-System repository
(`src/modules/fusion/{events,state_manager,rule_fusion}.py`).

Timestamps, confidences, weights and timeouts are modelled as rationals
(`ℚ`); Python's `time.time()` is threaded through every operation as an
explicit `now` argument.  The `uuid` session identifiers are modelled by a
monotone counter `nextId`.  Python `dict[str, ...]` event payloads are
modelled as association lists `List (String × String)`; Python in-place
mutation of an event's `data` dict by a handler is modelled by the handler
passing the updated event on.  `print` logging and TTS/UI side effects are
outside the model.
-/

namespace Fusion

/-- `ModalityType` enum of `events.py`. -/
inductive ModalityType where
  | AUDIO
  | VISION
  | GESTURE
  | GAZE
  | HEAD_POSE
deriving DecidableEq, Repr

/-- `EventType` enum of `events.py`. -/
inductive EventType where
  | SPEECH_RECOGNIZED
  | INTENT_CLASSIFIED
  | GESTURE_DETECTED
  | GAZE_CHANGED
  | HEAD_POSE_CHANGED
  | DISTRACTION_DETECTED
  | ATTENTION_CONFIRMED
  | INTERACTION_COMPLETED
  | SCENARIO_STARTED
  | SCENARIO_ENDED
deriving DecidableEq, Repr

/-- `SystemState` enum of `state_manager.py`. -/
inductive SystemState where
  | IDLE
  | MONITORING
  | DISTRACTION_DETECTED
  | WAITING_RESPONSE
  | PROCESSING_RESPONSE
  | INTERACTION_COMPLETE
deriving DecidableEq, Repr

/-- `InteractionScenario` enum of `state_manager.py`. -/
inductive InteractionScenario where
  | DISTRACTION_ALERT
  | VOICE_COMMAND
  | GESTURE_CONTROL
deriving DecidableEq, Repr

/-- `FusionStrategy` enum of `rule_fusion.py`. -/
inductive FusionStrategy where
  | MAJORITY_VOTE
  | CONFIDENCE_WEIGHTED
  | PRIORITY_BASED
  | TIME_WINDOW
deriving DecidableEq, Repr

/-- `ConflictResolution` enum of `rule_fusion.py`. -/
inductive ConflictResolution where
  | HIGHEST_CONFIDENCE
  | MODALITY_PRIORITY
  | TEMPORAL_ORDER
  | USER_PREFERENCE
deriving DecidableEq, Repr

/-- A Python `dict[str, str]` payload as an association list. -/
abbrev DataMap := List (String × String)

/-- `d.get(k)`: first binding of `k`, `none` when absent. -/
def dataGet (d : DataMap) (k : String) : Option String :=
  (d.find? (fun p => p.1 = k)).map (fun p => p.2)

/-- `d[k] = v`: replace the binding of `k` when present, else append it. -/
def dataSet (d : DataMap) (k : String) (v : String) : DataMap :=
  if d.any (fun p => p.1 = k) then
    d.map (fun p => if p.1 = k then (k, v) else p)
  else
    d ++ [(k, v)]

/-- Python `a or b` on two optional strings (`""` and `None` are falsy). -/
def pyOr (a b : Option String) : Option String :=
  match a with
  | some s => if s = "" then b else some s
  | none => b

/-- `ModalityEvent` dataclass of `events.py`. -/
structure ModalityEvent where
  event_type : EventType
  modality : ModalityType
  timestamp : ℚ
  confidence : ℚ
  data : DataMap
  session_id : Option Nat := none
deriving DecidableEq, Repr

/-- The session `metadata` dict: the two keys `end_current_session` writes,
plus the free-form entries supplied at `start_interaction`. -/
structure SessionMeta where
  endReason : Option String := none
  duration : Option ℚ := none
  info : DataMap := []
deriving DecidableEq, Repr

/-- `InteractionSession` dataclass of `state_manager.py`. -/
structure InteractionSession where
  session_id : Nat
  scenario : InteractionScenario
  start_time : ℚ
  state : SystemState
  expected_modalities : List ModalityType
  received_events : List ModalityEvent
  timeout : ℚ
  metadata : SessionMeta
deriving DecidableEq, Repr

/-- `InteractionSession.is_expired`: `time.time() - self.start_time > self.timeout`. -/
def isExpired (s : InteractionSession) (now : ℚ) : Bool :=
  decide (now - s.start_time > s.timeout)

/-- The `fusion_result` dict built by `_perform_fusion` and filled in by the
strategy functions.  `details` is modelled by the strategy-specific fields
`selectedModality` (priority-based) and `scores` (confidence-weighted). -/
structure FusionResult where
  strategy : FusionStrategy
  events_count : Nat
  modalities : List ModalityType
  confidence : ℚ
  decision : Option String
  selectedModality : Option ModalityType
  scores : List (String × ℚ)
deriving DecidableEq, Repr

/-- One entry of `RuleFusionEngine.interaction_log`. -/
structure LogEntry where
  session_id : Nat
  scenario : InteractionScenario
  fusion_result : FusionResult
deriving DecidableEq, Repr

/-- The mutable state of `StateManager` and `RuleFusionEngine` together:
current state and session, bounded session history, the engine's fusion log,
and the record of events the engine publishes (`DISTRACTION_DETECTED` /
`ATTENTION_CONFIRMED`).  `nextId` models the `uuid` generator. -/
structure SysState where
  currentState : SystemState
  currentSession : Option InteractionSession
  sessionHistory : List InteractionSession
  nextId : Nat
  interactionLog : List LogEntry
  published : List ModalityEvent
deriving DecidableEq, Repr

/-- `StateManager.__init__` together with a fresh fusion engine. -/
def initState : SysState :=
  { currentState := SystemState.IDLE
    currentSession := none
    sessionHistory := []
    nextId := 0
    interactionLog := []
    published := [] }

/-- `StateManager.change_state`: records the new state.  The state-change
callbacks only print and schedule reminder responses (scenario handler),
which are outside this model. -/
def changeState (newState : SystemState) (st : SysState) : SysState :=
  { st with currentState := newState }

/-- `InteractionSession.duration`. -/
def sessionDuration (s : InteractionSession) (now : ℚ) : ℚ :=
  now - s.start_time

/-- `StateManager.end_current_session`. -/
def endCurrentSession (reason : String) (now : ℚ) (st : SysState) : SysState :=
  match st.currentSession with
  | none => st
  | some s =>
    let s' := { s with metadata :=
      { s.metadata with endReason := some reason, duration := some (sessionDuration s now) } }
    let hist := st.sessionHistory ++ [s']
    let hist := if hist.length > 100 then hist.tail else hist
    changeState SystemState.IDLE
      { st with sessionHistory := hist, currentSession := none }

/-- `StateManager.start_interaction`: force-ends any active session with
reason `"new_session_started"`, creates the new session and moves to
`WAITING_RESPONSE`.  Returns the fresh session id with the new state. -/
def startInteraction (scenario : InteractionScenario)
    (expected : List ModalityType) (timeout : ℚ) (meta : DataMap)
    (now : ℚ) (st : SysState) : Nat × SysState :=
  let st :=
    if st.currentSession.isSome then endCurrentSession "new_session_started" now st
    else st
  let sid := st.nextId
  let s : InteractionSession :=
    { session_id := sid
      scenario := scenario
      start_time := now
      state := SystemState.WAITING_RESPONSE
      expected_modalities := expected
      received_events := []
      timeout := timeout
      metadata := { info := meta } }
  (sid, changeState SystemState.WAITING_RESPONSE
    { st with currentSession := some s, nextId := sid + 1 })

/-- `StateManager.add_event_to_session`. -/
def addEventToSession (e : ModalityEvent) (now : ℚ) (st : SysState) :
    Bool × SysState :=
  match st.currentSession with
  | none => (false, st)
  | some s =>
    if isExpired s now then
      (false, endCurrentSession "timeout" now st)
    else
      let s' := { s with received_events := s.received_events ++ [e] }
      (true, { st with currentSession := some s' })

/-- `StateManager.check_session_completion`. -/
def checkSessionCompletion (now : ℚ) (st : SysState) : Bool × SysState :=
  match st.currentSession with
  | none => (false, st)
  | some s =>
    let received := s.received_events.map (fun e => e.modality)
    if s.expected_modalities.all (fun m => received.contains m) then
      (true, endCurrentSession "completed" now st)
    else
      (false, st)

/-- `FusionRule` dataclass of `rule_fusion.py`.  `modality_weights` is the
weight dict as an association list. -/
structure FusionRule where
  scenario : InteractionScenario
  required_modalities : List ModalityType
  optional_modalities : List ModalityType
  time_window : ℚ
  fusion_strategy : FusionStrategy
  conflict_resolution : ConflictResolution
  modality_weights : List (ModalityType × ℚ)
  priority_order : List ModalityType
deriving DecidableEq, Repr

/-- `rule.modality_weights.get(modality, 1.0)`. -/
def weightOf (r : FusionRule) (m : ModalityType) : ℚ :=
  match r.modality_weights.find? (fun p => p.1 = m) with
  | some p => p.2
  | none => 1

/-- The `DISTRACTION_ALERT` rule of `_initialize_rules`. -/
def distractionRule : FusionRule :=
  { scenario := InteractionScenario.DISTRACTION_ALERT
    required_modalities := [ModalityType.GAZE]
    optional_modalities := [ModalityType.AUDIO, ModalityType.GESTURE]
    time_window := 10
    fusion_strategy := FusionStrategy.PRIORITY_BASED
    conflict_resolution := ConflictResolution.MODALITY_PRIORITY
    modality_weights :=
      [(ModalityType.GAZE, 4/10), (ModalityType.AUDIO, 4/10), (ModalityType.GESTURE, 2/10)]
    priority_order := [ModalityType.AUDIO, ModalityType.GESTURE, ModalityType.GAZE] }

/-- The `VOICE_COMMAND` rule of `_initialize_rules`. -/
def voiceRule : FusionRule :=
  { scenario := InteractionScenario.VOICE_COMMAND
    required_modalities := [ModalityType.AUDIO]
    optional_modalities := [ModalityType.GESTURE, ModalityType.GAZE]
    time_window := 5
    fusion_strategy := FusionStrategy.CONFIDENCE_WEIGHTED
    conflict_resolution := ConflictResolution.HIGHEST_CONFIDENCE
    modality_weights :=
      [(ModalityType.AUDIO, 6/10), (ModalityType.GESTURE, 3/10), (ModalityType.GAZE, 1/10)]
    priority_order := [ModalityType.AUDIO, ModalityType.GESTURE, ModalityType.GAZE] }

/-- The `GESTURE_CONTROL` rule of `_initialize_rules`. -/
def gestureRule : FusionRule :=
  { scenario := InteractionScenario.GESTURE_CONTROL
    required_modalities := [ModalityType.GESTURE]
    optional_modalities := [ModalityType.GAZE, ModalityType.AUDIO]
    time_window := 3
    fusion_strategy := FusionStrategy.MAJORITY_VOTE
    conflict_resolution := ConflictResolution.TEMPORAL_ORDER
    modality_weights :=
      [(ModalityType.GESTURE, 5/10), (ModalityType.GAZE, 3/10), (ModalityType.AUDIO, 2/10)]
    priority_order := [ModalityType.GESTURE, ModalityType.GAZE, ModalityType.AUDIO] }

/-- `self.fusion_rules` dict, keyed by scenario (it covers every scenario). -/
def fusionRules : InteractionScenario → FusionRule
  | InteractionScenario.DISTRACTION_ALERT => distractionRule
  | InteractionScenario.VOICE_COMMAND => voiceRule
  | InteractionScenario.GESTURE_CONTROL => gestureRule

/-- `_extract_intent_from_event`. -/
def extractIntent (e : ModalityEvent) : Option String :=
  match e.modality with
  | ModalityType.AUDIO =>
    pyOr (dataGet e.data "intent") (dataGet e.data "response_type")
  | ModalityType.GESTURE =>
    match dataGet e.data "gesture" with
    | some "thumbs_up" => some "confirm"
    | some "ok" => some "confirm"
    | some "thumbs_down" => some "reject"
    | some "stop" => some "reject"
    | some "wave" => some "attention"
    | _ => none
  | ModalityType.GAZE =>
    match dataGet e.data "state" with
    | some "center" => some "attention"
    | some "left" => some "distraction"
    | some "right" => some "distraction"
    | _ => none
  | _ => none

/-- `if intent:` — an intent is used only when truthy (non-`None`, non-empty). -/
def truthyIntent (i : Option String) : Option String :=
  match i with
  | some s => if s = "" then none else some s
  | none => none

/-- `_get_session_events_in_window`. -/
def eventsInWindow (s : InteractionSession) (timeWindow : ℚ) (now : ℚ) :
    List ModalityEvent :=
  s.received_events.filter (fun e => decide (now - e.timestamp ≤ timeWindow))

/-- `_can_perform_fusion`. -/
def canPerformFusion (events : List ModalityEvent) (r : FusionRule) : Bool :=
  let received := events.map (fun e => e.modality)
  r.required_modalities.all (fun m => received.contains m) &&
    (r.optional_modalities.isEmpty ||
      r.optional_modalities.any (fun m => received.contains m))

/-- Python `max(events, key=lambda e: e.confidence)`: first maximal element. -/
def bestByConfidence (e0 : ModalityEvent) (es : List ModalityEvent) :
    ModalityEvent :=
  es.foldl (fun b e => if e.confidence > b.confidence then e else b) e0

/-- Insertion-ordered accumulation `scores[i] += v` (inserting `i` at the
end when new), as a Python dict update. -/
def addScore (scores : List (String × ℚ)) (i : String) (v : ℚ) :
    List (String × ℚ) :=
  if scores.any (fun p => p.1 = i) then
    scores.map (fun p => if p.1 = i then (p.1, p.2 + v) else p)
  else
    scores ++ [(i, v)]

/-- Python `max(d, key=d.get)` over an insertion-ordered non-empty score
list: the first key attaining the maximal value. -/
def argmaxScore (p0 : String × ℚ) (ps : List (String × ℚ)) : String × ℚ :=
  ps.foldl (fun b p => if p.2 > b.2 then p else b) p0

/-- The loop body of `_confidence_weighted_fusion`: per event with a truthy
intent, accumulate `weight(modality) × confidence` under that intent and add
the weight to the running total. -/
def weightedStep (r : FusionRule) (acc : List (String × ℚ) × ℚ)
    (e : ModalityEvent) : List (String × ℚ) × ℚ :=
  match truthyIntent (extractIntent e) with
  | some i => (addScore acc.1 i (weightOf r e.modality * e.confidence),
               acc.2 + weightOf r e.modality)
  | none => acc

/-- The loop of `_confidence_weighted_fusion`: the per-intent weighted
scores (insertion order) and the total weight. -/
def weightedScores (events : List ModalityEvent) (r : FusionRule) :
    List (String × ℚ) × ℚ :=
  events.foldl (weightedStep r) ([], 0)

/-- `_confidence_weighted_fusion`: normalize each accumulated score by the
total weight and decide for the arg-max intent with its normalized score as
the confidence. -/
def confidenceWeightedFusion (events : List ModalityEvent) (r : FusionRule)
    (result : FusionResult) : FusionResult :=
  match weightedScores events r with
  | ([], _) => result
  | (p0 :: ps, totalWeight) =>
    if totalWeight > 0 then
      let q0 := (p0.1, p0.2 / totalWeight)
      let qs := ps.map (fun p => (p.1, p.2 / totalWeight))
      let best := argmaxScore q0 qs
      { result with decision := some best.1, confidence := best.2,
                    scores := q0 :: qs }
    else
      result

/-- The priority loop of `_priority_based_fusion`: take the first modality
of the order whose events are present and whose best event carries a truthy
intent (a falsy intent does not `break` the loop). -/
def priorityLoop (events : List ModalityEvent) (result : FusionResult) :
    List ModalityType → FusionResult
  | [] => result
  | m :: rest =>
    match events.filter (fun e => e.modality = m) with
    | [] => priorityLoop events result rest
    | e0 :: es =>
      let best := bestByConfidence e0 es
      match truthyIntent (extractIntent best) with
      | some i =>
        { result with decision := some i, confidence := best.confidence,
                      selectedModality := some m }
      | none => priorityLoop events result rest

/-- `_priority_based_fusion`. -/
def priorityBasedFusion (events : List ModalityEvent) (r : FusionRule)
    (result : FusionResult) : FusionResult :=
  priorityLoop events result r.priority_order

/-- Vote accumulation of `_majority_vote_fusion` (count per truthy intent,
insertion order). -/
def voteCounts (events : List ModalityEvent) : List (String × ℚ) :=
  events.foldl
    (fun acc e =>
      match truthyIntent (extractIntent e) with
      | some i => addScore acc i 1
      | none => acc)
    []

/-- `_majority_vote_fusion`. -/
def majorityVoteFusion (events : List ModalityEvent) (r : FusionRule)
    (result : FusionResult) : FusionResult :=
  match voteCounts events with
  | [] => result
  | p0 :: ps =>
    let best := argmaxScore p0 ps
    { result with decision := some best.1,
                  confidence := best.2 / (events.length : ℚ) }

/-- First-occurrence deduplication, modelling `list(set(...))` membership. -/
def uniqModalities (l : List ModalityType) : List ModalityType :=
  l.foldl (fun acc m => if acc.contains m then acc else acc ++ [m]) []

/-- `_perform_fusion`. -/
def performFusion (events : List ModalityEvent) (r : FusionRule) :
    FusionResult :=
  let base : FusionResult :=
    { strategy := r.fusion_strategy
      events_count := events.length
      modalities := uniqModalities (events.map (fun e => e.modality))
      confidence := 0
      decision := none
      selectedModality := none
      scores := [] }
  match r.fusion_strategy with
  | FusionStrategy.CONFIDENCE_WEIGHTED => confidenceWeightedFusion events r base
  | FusionStrategy.PRIORITY_BASED => priorityBasedFusion events r base
  | FusionStrategy.MAJORITY_VOTE => majorityVoteFusion events r base
  | FusionStrategy.TIME_WINDOW => base

/-- `_handle_fusion_result`: log the fusion, publish `ATTENTION_CONFIRMED`
and end the session with reason `"attention_confirmed"` when the decision is
`"confirm"` or `"attention"`, do nothing further for `"reject"` or other
decisions, then trim the log. -/
def handleFusionResult (fr : FusionResult) (session : InteractionSession)
    (now : ℚ) (st : SysState) : SysState :=
  let entry : LogEntry :=
    { session_id := session.session_id, scenario := session.scenario,
      fusion_result := fr }
  let st := { st with interactionLog := st.interactionLog ++ [entry] }
  let st :=
    if fr.decision = some "confirm" ∨ fr.decision = some "attention" then
      let ev : ModalityEvent :=
        { event_type := EventType.ATTENTION_CONFIRMED
          modality := ModalityType.VISION
          timestamp := now
          confidence := fr.confidence
          data := [("decision", (fr.decision).getD "")]
          session_id := some session.session_id }
      let st := { st with published := st.published ++ [ev] }
      endCurrentSession "attention_confirmed" now st
    else st
  if st.interactionLog.length > 1000 then
    { st with interactionLog := st.interactionLog.drop (st.interactionLog.length - 500) }
  else st

/-- `_check_fusion_completion`. -/
def checkFusionCompletion (now : ℚ) (st : SysState) : SysState :=
  match st.currentSession with
  | none => st
  | some session =>
    let rule := fusionRules session.scenario
    let recent := eventsInWindow session rule.time_window now
    if canPerformFusion recent rule then
      handleFusionResult (performFusion recent rule) session now st
    else st

/-- `_trigger_distraction_scenario`: only when the system is `IDLE`, start a
distraction-alert session (expected `AUDIO`/`GESTURE`, 15 s timeout) and
publish a `DISTRACTION_DETECTED` event.  The trigger event's snapshot in the
session metadata is modelled by recording its gaze state. -/
def triggerDistraction (trigger : ModalityEvent) (now : ℚ) (st : SysState) :
    SysState :=
  if st.currentState ≠ SystemState.IDLE then st
  else
    let meta : DataMap :=
      match dataGet trigger.data "state" with
      | some s => [("trigger_gaze_state", s)]
      | none => []
    let out := startInteraction InteractionScenario.DISTRACTION_ALERT
      [ModalityType.AUDIO, ModalityType.GESTURE] 15 meta now st
    let sid := out.1
    let st2 := out.2
    let distractionEvent : ModalityEvent :=
      { event_type := EventType.DISTRACTION_DETECTED
        modality := ModalityType.VISION
        timestamp := now
        confidence := trigger.confidence
        data := [("reason", "gaze_deviation"),
                 ("gaze_state", (dataGet trigger.data "state").getD ""),
                 ("session_id", toString sid)]
        session_id := some sid }
    { st2 with published := st2.published ++ [distractionEvent] }

/-- `_handle_gaze_event`. -/
def handleGazeEvent (e : ModalityEvent) (now : ℚ) (st : SysState) : SysState :=
  let st :=
    if dataGet e.data "state" = some "left" ∨ dataGet e.data "state" = some "right"
    then triggerDistraction e now st
    else st
  let st := (addEventToSession e now st).2
  checkFusionCompletion now st

/-- The in-place `event.data["intent"] = ...` update of
`_handle_gesture_event`. -/
def gestureAnnotate (e : ModalityEvent) : ModalityEvent :=
  let g := dataGet e.data "gesture"
  if g = some "thumbs_up" ∨ g = some "ok" then
    { e with data := dataSet e.data "intent" "confirm" }
  else if g = some "thumbs_down" ∨ g = some "stop" then
    { e with data := dataSet e.data "intent" "reject" }
  else if g = some "wave" then
    { e with data := dataSet e.data "intent" "attention" }
  else e

/-- `_handle_gesture_event`. -/
def handleGestureEvent (e : ModalityEvent) (now : ℚ) (st : SysState) :
    SysState :=
  let e := gestureAnnotate e
  let st := (addEventToSession e now st).2
  checkFusionCompletion now st

/-- `_handle_speech_event`. -/
def handleSpeechEvent (e : ModalityEvent) (now : ℚ) (st : SysState) :
    SysState :=
  let st := (addEventToSession e now st).2
  checkFusionCompletion now st

/-- The in-place `event.data["response_type"] = ...` update of
`_handle_intent_event`. -/
def intentAnnotate (e : ModalityEvent) : ModalityEvent :=
  let i := dataGet e.data "intent"
  if i = some "attention_confirm" ∨ i = some "road_focus" then
    { e with data := dataSet e.data "response_type" "attention_confirmed" }
  else if i = some "reject" ∨ i = some "busy" then
    { e with data := dataSet e.data "response_type" "attention_rejected" }
  else e

/-- `_handle_intent_event`. -/
def handleIntentEvent (e : ModalityEvent) (now : ℚ) (st : SysState) :
    SysState :=
  let e := intentAnnotate e
  let st := (addEventToSession e now st).2
  checkFusionCompletion now st

/-- `_handle_head_pose_event`. -/
def handleHeadPoseEvent (e : ModalityEvent) (now : ℚ) (st : SysState) :
    SysState :=
  let st := (addEventToSession e now st).2
  checkFusionCompletion now st

/-- A subscriber callback of `EventBus` (`events.py`).  A handler transforms
an abstract world state `S`; `run` returns the state the callback leaves
behind together with the message of the exception it raised, if any (Python
mutations made before a `raise` persist, hence the state is returned even
when an error is reported). -/
structure BusHandler (S : Type) where
  run : ModalityEvent → S → S × Option String

/-- `EventBus`: per-type subscriber lists in registration order (flattened
into one type-tagged list) and the bounded event history. -/
structure EventBus (S : Type) where
  subscribers : List (EventType × BusHandler S)
  event_history : List ModalityEvent

/-- `self._max_history = 1000`. -/
def maxHistoryCap : Nat := 1000

/-- `self._subscribers[event_type]` in registration order. -/
def subscribersFor {S : Type} (b : EventBus S) (t : EventType) :
    List (BusHandler S) :=
  (b.subscribers.filter (fun p => p.1 = t)).map (fun p => p.2)

/-- The notification loop of `publish`: run every callback in order; a
raised exception is caught (recorded in the error list) and the loop goes
on with the remaining callbacks. -/
def busRun {S : Type} :
    List (BusHandler S) → ModalityEvent → S → S × List (Option String)
  | [], _, s => (s, [])
  | h :: hs, e, s =>
    let r := h.run e s
    let rest := busRun hs e r.1
    (rest.1, r.2 :: rest.2)

/-- `EventBus.publish`: append to the bounded history (pop the oldest entry
when the capacity of 1000 is exceeded), then notify the subscribers of the
event's type.  Returns the new bus, the state after all callbacks, and the
caught exception (if any) of each callback in invocation order. -/
def publish {S : Type} (b : EventBus S) (e : ModalityEvent) (s : S) :
    EventBus S × S × List (Option String) :=
  let hist := b.event_history ++ [e]
  let hist := if hist.length > maxHistoryCap then hist.tail else hist
  let out := busRun (subscribersFor b e.event_type) e s
  ({ b with event_history := hist }, out.1, out.2)

/-! ### Helper lemmas -/

/-- The session moved to the bounded history by `endCurrentSession` is the
current session stamped with the end reason and duration. -/
def endedSession (s : InteractionSession) (reason : String) (now : ℚ) :
    InteractionSession :=
  { s with metadata :=
    { s.metadata with endReason := some reason,
                      duration := some (sessionDuration s now) } }

theorem endCurrentSession_eq (reason : String) (now : ℚ) (st : SysState)
    (s : InteractionSession) (h : st.currentSession = some s) :
    endCurrentSession reason now st =
      { st with
        sessionHistory :=
          if (st.sessionHistory ++ [endedSession s reason now]).length > 100
          then (st.sessionHistory ++ [endedSession s reason now]).tail
          else st.sessionHistory ++ [endedSession s reason now]
        currentSession := none
        currentState := SystemState.IDLE } := by
  simp only [endCurrentSession, h, endedSession, changeState]

theorem boundedConcat_getLast (l : List InteractionSession)
    (x : InteractionSession) :
    (if (l ++ [x]).length > 100 then (l ++ [x]).tail else l ++ [x]).getLast?
      = some x := by
  split
  case isTrue h =>
    cases l with
    | nil => simp at h
    | cons a l' =>
      simp only [List.cons_append, List.tail_cons]
      exact List.getLast?_concat _
  case isFalse h => exact List.getLast?_concat _

theorem endCurrentSession_getLast (reason : String) (now : ℚ) (st : SysState)
    (s : InteractionSession) (h : st.currentSession = some s) :
    (endCurrentSession reason now st).sessionHistory.getLast?
      = some (endedSession s reason now) := by
  rw [endCurrentSession_eq reason now st s h]
  exact boundedConcat_getLast _ _

theorem endCurrentSession_nextId (reason : String) (now : ℚ) (st : SysState) :
    (endCurrentSession reason now st).nextId = st.nextId := by
  unfold endCurrentSession
  cases st.currentSession <;> simp [changeState]

theorem addEventToSession_nextId (e : ModalityEvent) (now : ℚ)
    (st : SysState) : (addEventToSession e now st).2.nextId = st.nextId := by
  unfold addEventToSession
  cases h : st.currentSession with
  | none => rfl
  | some s =>
    by_cases hx : isExpired s now
    · simp [hx, endCurrentSession_nextId]
    · simp [hx]

theorem handleFusionResult_nextId (fr : FusionResult)
    (s : InteractionSession) (now : ℚ) (st : SysState) :
    (handleFusionResult fr s now st).nextId = st.nextId := by
  unfold handleFusionResult
  by_cases hd : fr.decision = some "confirm" ∨ fr.decision = some "attention" <;>
    simp only [hd, if_pos, if_neg, not_false_iff] <;>
    split <;> simp [endCurrentSession_nextId]

theorem checkFusionCompletion_nextId (now : ℚ) (st : SysState) :
    (checkFusionCompletion now st).nextId = st.nextId := by
  unfold checkFusionCompletion
  cases h : st.currentSession with
  | none => rfl
  | some s =>
    by_cases hc : canPerformFusion
        (eventsInWindow s (fusionRules s.scenario).time_window now)
        (fusionRules s.scenario)
    · simp [hc, handleFusionResult_nextId]
    · simp [hc]

/-! ### C1 -/

/-- The scenario-A trigger event: gaze deviated left, confidence 0.9. -/
def scenAGaze : ModalityEvent :=
  { event_type := EventType.GAZE_CHANGED, modality := ModalityType.GAZE,
    timestamp := 0, confidence := 9/10, data := [("state", "left")] }

/-- The scenario-A speech-intent event: `attention_confirm`, confidence 0.8. -/
def scenAIntent : ModalityEvent :=
  { event_type := EventType.INTENT_CLASSIFIED, modality := ModalityType.AUDIO,
    timestamp := 0, confidence := 8/10, data := [("intent", "attention_confirm")] }

/-- The scenario-A gesture event: thumbs up, confidence 0.8. -/
def scenAGesture : ModalityEvent :=
  { event_type := EventType.GESTURE_DETECTED, modality := ModalityType.GESTURE,
    timestamp := 0, confidence := 8/10, data := [("gesture", "thumbs_up")] }

/-- The system state after the engine handles the three scenario-A events
(all within the time window). -/
def scenAFinal : SysState :=
  handleGestureEvent scenAGesture 0
    (handleIntentEvent scenAIntent 0 (handleGazeEvent scenAGaze 0 initState))

/-- C1: scenario A diverges from the claim on the code.  The left-gaze event
does start a distraction-alert session, and both fusion computations run,
but they fuse to the raw audio intent label `"attention_confirm"`, which is
neither `"confirm"` nor `"attention"`; hence no `ATTENTION_CONFIRMED` event
is published, no session ends with reason `"attention_confirmed"`, and the
state stays `WAITING_RESPONSE` with the session open — the repository's own
test asserts the opposite outcome. -/
theorem c1_scenarioA_code_bug :
    scenAFinal.currentState = SystemState.WAITING_RESPONSE ∧
    scenAFinal.currentSession.isSome = true ∧
    scenAFinal.interactionLog.map (fun l => l.fusion_result.decision)
      = [some "attention_confirm", some "attention_confirm"] ∧
    scenAFinal.published.map (fun e => e.event_type)
      = [EventType.DISTRACTION_DETECTED] ∧
    scenAFinal.sessionHistory = [] := by
  with_unfolding_all decide

/-! ### C6 -/

/-- C6: a session is expired exactly when its age strictly exceeds its
timeout; an age equal to the timeout is not yet expired, and any strictly
larger age is. -/
theorem c6_isExpired_boundary (s : InteractionSession) (now : ℚ) :
    (isExpired s now = true ↔ now - s.start_time > s.timeout) ∧
    (now - s.start_time = s.timeout → isExpired s now = false) ∧
    (∀ ε : ℚ, 0 < ε → now - s.start_time = s.timeout + ε →
      isExpired s now = true) := by
  refine ⟨?_, ?_, ?_⟩
  · simp [isExpired]
  · intro h
    simp [isExpired, h]
  · intro ε hε h
    simp only [isExpired, h, decide_eq_true_eq]
    linarith

/-- C6 witness: a session started at time 0 with timeout 10 is not expired
at time 10 and is expired at time 10.5. -/
theorem c6_isExpired_boundary_witness :
    isExpired { session_id := 0, scenario := InteractionScenario.DISTRACTION_ALERT,
                start_time := 0, state := SystemState.WAITING_RESPONSE,
                expected_modalities := [], received_events := [], timeout := 10,
                metadata := {} } 10 = false ∧
    isExpired { session_id := 0, scenario := InteractionScenario.DISTRACTION_ALERT,
                start_time := 0, state := SystemState.WAITING_RESPONSE,
                expected_modalities := [], received_events := [], timeout := 10,
                metadata := {} } (21/2) = true := by
  constructor
  · exact (c6_isExpired_boundary _ 10).2.1 (by norm_num)
  · exact (c6_isExpired_boundary _ (21/2)).2.2 (1/2) (by norm_num) (by norm_num)

/-! ### C10 -/

/-- The coupling invariant of the state manager: the system is `IDLE`
exactly when no session is current. -/
def stateInv (st : SysState) : Prop :=
  st.currentState = SystemState.IDLE ↔ st.currentSession = none

instance (st : SysState) : Decidable (stateInv st) := by
  unfold stateInv
  infer_instance

/-- One call to a session operation of `StateManager`. -/
inductive SMOp where
  | startOp (scenario : InteractionScenario) (expected : List ModalityType)
      (timeout : ℚ) (meta : DataMap) (now : ℚ)
  | addOp (e : ModalityEvent) (now : ℚ)
  | completeOp (now : ℚ)
  | endOp (reason : String) (now : ℚ)

/-- Apply one session operation. -/
def applySMOp : SMOp → SysState → SysState
  | SMOp.startOp sc ex t m now, st => (startInteraction sc ex t m now st).2
  | SMOp.addOp e now, st => (addEventToSession e now st).2
  | SMOp.completeOp now, st => (checkSessionCompletion now st).2
  | SMOp.endOp r now, st => endCurrentSession r now st

/-- Apply a sequence of session operations. -/
def runSMOps (ops : List SMOp) (st : SysState) : SysState :=
  ops.foldl (fun st op => applySMOp op st) st

theorem stateInv_end (reason : String) (now : ℚ) (st : SysState)
    (h : stateInv st) : stateInv (endCurrentSession reason now st) := by
  unfold endCurrentSession
  cases hc : st.currentSession with
  | none => simpa [hc] using h
  | some s => simp [stateInv, changeState]

theorem stateInv_start (sc : InteractionScenario) (ex : List ModalityType)
    (t : ℚ) (m : DataMap) (now : ℚ) (st : SysState) :
    stateInv (startInteraction sc ex t m now st).2 := by
  unfold startInteraction
  split <;> simp [stateInv, changeState]

theorem stateInv_add (e : ModalityEvent) (now : ℚ) (st : SysState)
    (h : stateInv st) : stateInv (addEventToSession e now st).2 := by
  unfold addEventToSession
  cases hc : st.currentSession with
  | none => simpa [hc] using h
  | some s =>
    by_cases hx : isExpired s now
    · simpa [hx] using stateInv_end "timeout" now st h
    · have hni : st.currentState ≠ SystemState.IDLE := by
        intro hidle
        rw [h.mp hidle] at hc
        exact Option.noConfusion hc
      simp only [hx, Bool.false_eq_true, if_neg, not_false_iff]
      simpa [stateInv] using fun hidle => absurd hidle hni

theorem stateInv_complete (now : ℚ) (st : SysState) (h : stateInv st) :
    stateInv (checkSessionCompletion now st).2 := by
  unfold checkSessionCompletion
  cases hc : st.currentSession with
  | none => simpa [hc] using h
  | some s =>
    simp only [hc]
    split
    · exact stateInv_end "completed" now st h
    · exact h

/-- C10: starting from the initial state, every sequence of the session
operations `startInteraction`, `addEventToSession`, `checkSessionCompletion`
and `endCurrentSession` preserves the coupling invariant
`currentState = IDLE ↔ currentSession = none`; consequently the gaze
trigger's test `currentState ≠ IDLE` is equivalent to "a session is
active". -/
theorem c10_coupling_invariant :
    stateInv initState ∧
    (∀ op st, stateInv st → stateInv (applySMOp op st)) ∧
    (∀ ops st, stateInv st → stateInv (runSMOps ops st)) ∧
    (∀ st, stateInv st →
      (st.currentState ≠ SystemState.IDLE ↔ st.currentSession.isSome = true)) := by
  have hop : ∀ op st, stateInv st → stateInv (applySMOp op st) := by
    intro op st h
    cases op with
    | startOp sc ex t m now => exact stateInv_start sc ex t m now st
    | addOp e now => exact stateInv_add e now st h
    | completeOp now => exact stateInv_complete now st h
    | endOp r now => exact stateInv_end r now st h
  refine ⟨by simp [stateInv, initState], hop, ?_, ?_⟩
  · intro ops
    induction ops with
    | nil => intro st h; exact h
    | cons op rest ih =>
      intro st h
      exact ih _ (hop op st h)
  · intro st h
    constructor
    · intro hni
      cases hc : st.currentSession with
      | none => exact absurd (h.mpr hc) hni
      | some s => simp
    · intro hs hidle
      rw [h.mp hidle] at hs
      simp at hs

/-- C10 witness: the invariant holds after a concrete operation sequence
(start a session, add an event, end it) applied to the initial state. -/
theorem c10_coupling_invariant_witness :
    stateInv (runSMOps
      [SMOp.startOp InteractionScenario.DISTRACTION_ALERT
        [ModalityType.AUDIO] 15 [] 0,
       SMOp.addOp scenAIntent 1,
       SMOp.endOp "manual" 2] initState) :=
  c10_coupling_invariant.2.2.1 _ initState (by decide)

/-! ### C3 -/

/-- The state after `add_event_to_session` appends `e` to session `s`. -/
def appendedState (st : SysState) (s : InteractionSession)
    (e : ModalityEvent) : SysState :=
  let s' := { s with received_events := s.received_events ++ [e] }
  { st with currentSession := some s' }

theorem addEventToSession_of_unexpired (e : ModalityEvent) (now : ℚ)
    (st : SysState) (s : InteractionSession)
    (hs : st.currentSession = some s) (hx : isExpired s now = false) :
    addEventToSession e now st = (true, appendedState st s e) := by
  simp [addEventToSession, hs, hx, appendedState]

/-- C3: `add_event_to_session` returns false and changes nothing when no
session is active; on an expired session it ends the session with reason
`"timeout"`, dropping the event (the archived session's event list is
unchanged), and returns false; otherwise it appends the event and returns
true. -/
theorem c3_addEventToSession_spec (e : ModalityEvent) (now : ℚ)
    (st : SysState) :
    (st.currentSession = none → addEventToSession e now st = (false, st)) ∧
    (∀ s, st.currentSession = some s → isExpired s now = true →
      addEventToSession e now st = (false, endCurrentSession "timeout" now st) ∧
      (endCurrentSession "timeout" now st).currentSession = none ∧
      (endCurrentSession "timeout" now st).currentState = SystemState.IDLE ∧
      (endCurrentSession "timeout" now st).sessionHistory.getLast?
        = some (endedSession s "timeout" now) ∧
      (endedSession s "timeout" now).received_events = s.received_events ∧
      (endedSession s "timeout" now).metadata.endReason = some "timeout") ∧
    (∀ s, st.currentSession = some s → isExpired s now = false →
      addEventToSession e now st = (true, appendedState st s e)) := by
  refine ⟨?_, ?_, ?_⟩
  · intro h
    simp [addEventToSession, h]
  · intro s hs hx
    refine ⟨?_, ?_, ?_, ?_, rfl, rfl⟩
    · simp [addEventToSession, hs, hx]
    · rw [endCurrentSession_eq "timeout" now st s hs]
    · rw [endCurrentSession_eq "timeout" now st s hs]
    · exact endCurrentSession_getLast "timeout" now st s hs
  · intro s hs hx
    exact addEventToSession_of_unexpired e now st s hs hx

/-- C3 witness: a state whose session started at time 0 with timeout 1. -/
def c3ExpSession : InteractionSession :=
  { session_id := 0, scenario := InteractionScenario.DISTRACTION_ALERT,
    start_time := 0, state := SystemState.WAITING_RESPONSE,
    expected_modalities := [ModalityType.AUDIO], received_events := [],
    timeout := 1, metadata := {} }

/-- The state holding `c3ExpSession` as the current session. -/
def c3ExpState : SysState :=
  { currentState := SystemState.WAITING_RESPONSE,
    currentSession := some c3ExpSession, sessionHistory := [], nextId := 1,
    interactionLog := [], published := [] }

/-- C3 witness: at time 2 the session (timeout 1) is expired, so the add
returns false, the event is dropped and the session is archived with end
reason `"timeout"`. -/
theorem c3_addEventToSession_spec_witness :
    addEventToSession scenAIntent 2 c3ExpState
        = (false, endCurrentSession "timeout" 2 c3ExpState) ∧
    (endCurrentSession "timeout" 2 c3ExpState).currentSession = none ∧
    (endCurrentSession "timeout" 2 c3ExpState).currentState
        = SystemState.IDLE ∧
    (endCurrentSession "timeout" 2 c3ExpState).sessionHistory.getLast?
        = some (endedSession c3ExpSession "timeout" 2) ∧
    (endedSession c3ExpSession "timeout" 2).received_events
        = c3ExpSession.received_events ∧
    (endedSession c3ExpSession "timeout" 2).metadata.endReason
        = some "timeout" :=
  (c3_addEventToSession_spec scenAIntent 2 c3ExpState).2.1 c3ExpSession rfl
    (by with_unfolding_all rfl)

/-! ### C8 -/

/-- A raw thumbs-up gesture event as published by a producer (no `intent`
key in its data). -/
def gestureRawEvt : ModalityEvent :=
  { event_type := EventType.GESTURE_DETECTED, modality := ModalityType.GESTURE,
    timestamp := 0, confidence := 8/10, data := [("gesture", "thumbs_up")] }

/-- A system state with a freshly started distraction-alert session. -/
def c8OpenState : SysState :=
  (startInteraction InteractionScenario.DISTRACTION_ALERT
    [ModalityType.AUDIO, ModalityType.GESTURE] 15 [] 0 initState).2

/-- C8 counterexample: events are not immutable once published — handling a
published thumbs-up gesture event mutates its `data` dict in place
(`event.data["intent"] = "confirm"`), so the event recorded in the session
differs from the event as published. -/
theorem c8_immutability_counterexample :
    (handleGestureEvent gestureRawEvt 0 c8OpenState).currentSession.map
        (fun s => s.received_events) = some [gestureAnnotate gestureRawEvt] ∧
    gestureAnnotate gestureRawEvt ≠ gestureRawEvt ∧
    dataGet (gestureAnnotate gestureRawEvt).data "intent" = some "confirm" ∧
    dataGet gestureRawEvt.data "intent" = none := by
  with_unfolding_all decide

theorem find?_map_replace (d : DataMap) (k k' v : String) (h : ¬k' = k) :
    (d.map (fun p => if p.1 = k then (k, v) else p)).find?
        (fun p => p.1 = k')
      = d.find? (fun p => p.1 = k') := by
  induction d with
  | nil => rfl
  | cons p rest ih =>
    by_cases hp : p.1 = k
    · have h1 : ¬((k : String), v).1 = k' := fun hk => h (hk.symm)
      simp only [List.map_cons, hp, if_pos, List.find?_cons]
      have h2 : ¬p.1 = k' := by rw [hp]; exact fun hk => h hk.symm
      simp [h1, h2, ih]
    · simp only [List.map_cons, hp, if_neg, not_false_iff, List.find?_cons]
      by_cases h2 : p.1 = k'
      · simp [h2]
      · simp [h2, ih]

theorem find?_append_newkey (d : DataMap) (k k' v : String) (h : ¬k' = k) :
    (d ++ [(k, v)]).find? (fun p => p.1 = k')
      = d.find? (fun p => p.1 = k') := by
  induction d with
  | nil =>
    have hd : decide (k = k') = false := decide_eq_false (fun hk => h hk.symm)
    simp [List.find?, hd]
  | cons p rest ih =>
    simp only [List.cons_append, List.find?_cons]
    by_cases h2 : p.1 = k'
    · simp [h2]
    · simp [h2, ih]

/-- Updating key `k` leaves every other key's lookup unchanged. -/
theorem dataGet_dataSet_ne (d : DataMap) (k k' v : String) (h : k' ≠ k) :
    dataGet (dataSet d k v) k' = dataGet d k' := by
  unfold dataGet dataSet
  split
  · rw [find?_map_replace d k k' v h]
  · rw [find?_append_newkey d k k' v h]

/-- C8 amended: the gesture handler's in-place update writes only the data
key `"intent"` and the intent handler's only `"response_type"`; every other
event field (type, modality, timestamp, confidence, session id) and every
other data key is left unchanged. -/
theorem c8_handler_frame (e : ModalityEvent) :
    ((gestureAnnotate e).event_type = e.event_type ∧
     (gestureAnnotate e).modality = e.modality ∧
     (gestureAnnotate e).timestamp = e.timestamp ∧
     (gestureAnnotate e).confidence = e.confidence ∧
     (gestureAnnotate e).session_id = e.session_id ∧
     ∀ k, k ≠ "intent" →
       dataGet (gestureAnnotate e).data k = dataGet e.data k) ∧
    ((intentAnnotate e).event_type = e.event_type ∧
     (intentAnnotate e).modality = e.modality ∧
     (intentAnnotate e).timestamp = e.timestamp ∧
     (intentAnnotate e).confidence = e.confidence ∧
     (intentAnnotate e).session_id = e.session_id ∧
     ∀ k, k ≠ "response_type" →
       dataGet (intentAnnotate e).data k = dataGet e.data k) := by
  constructor
  · simp only [gestureAnnotate]
    split_ifs <;>
      first
        | exact ⟨rfl, rfl, rfl, rfl, rfl,
            fun k hk => dataGet_dataSet_ne _ _ _ _ hk⟩
        | exact ⟨rfl, rfl, rfl, rfl, rfl, fun _ _ => rfl⟩
  · simp only [intentAnnotate]
    split_ifs <;>
      first
        | exact ⟨rfl, rfl, rfl, rfl, rfl,
            fun k hk => dataGet_dataSet_ne _ _ _ _ hk⟩
        | exact ⟨rfl, rfl, rfl, rfl, rfl, fun _ _ => rfl⟩

/-- C8 witness: on the concrete thumbs-up event the handler leaves the
`"gesture"` key (and all non-`"intent"` keys) unchanged. -/
theorem c8_handler_frame_witness :
    dataGet (gestureAnnotate gestureRawEvt).data "gesture"
      = dataGet gestureRawEvt.data "gesture" :=
  (c8_handler_frame gestureRawEvt).1.2.2.2.2.2 "gesture" (by decide)

/-! ### C4 -/

/-- The first modality of `order` with an event present, the "first modality
of that order present among the in-window events" of the claim. -/
def firstPresentModality (order : List ModalityType)
    (events : List ModalityEvent) : Option ModalityType :=
  order.find? (fun m => events.any (fun e => e.modality = m))

/-- An audio event carrying no intent (a raw `SPEECH_RECOGNIZED` event, as
`trigger_voice_command_scenario` publishes them). -/
def c4Speech : ModalityEvent :=
  { event_type := EventType.SPEECH_RECOGNIZED, modality := ModalityType.AUDIO,
    timestamp := 0, confidence := 8/10, data := [("text", "hi")] }

/-- A thumbs-up gesture event with lower confidence than `c4Speech`. -/
def c4Gesture : ModalityEvent :=
  { event_type := EventType.GESTURE_DETECTED, modality := ModalityType.GESTURE,
    timestamp := 0, confidence := 6/10, data := [("gesture", "thumbs_up")] }

/-- C4 counterexample: with an intent-less audio event and a thumbs-up
gesture in the window, `AUDIO` is the first modality of the priority order
that is present, and its (only, hence highest-confidence) event yields no
intent — yet the fusion decision is the gesture-derived `"confirm"`: the
loop does consult lower-priority modalities instead of stopping at the
first present one. -/
theorem c4_priority_counterexample :
    firstPresentModality distractionRule.priority_order [c4Speech, c4Gesture]
      = some ModalityType.AUDIO ∧
    [c4Speech, c4Gesture].filter (fun e => e.modality = ModalityType.AUDIO)
      = [c4Speech] ∧
    truthyIntent (extractIntent c4Speech) = none ∧
    (performFusion [c4Speech, c4Gesture] distractionRule).decision
      = some "confirm" ∧
    (performFusion [c4Speech, c4Gesture] distractionRule).selectedModality
      = some ModalityType.GESTURE := by
  with_unfolding_all decide

/-- `true` iff no decision can come from modality `m`: either no event of
that modality is present, or its highest-confidence event carries no truthy
intent. -/
def modalityNoIntent (events : List ModalityEvent) (m : ModalityType) :
    Bool :=
  match events.filter (fun e => e.modality = m) with
  | [] => true
  | e0 :: es => (truthyIntent (extractIntent (bestByConfidence e0 es))).isNone

theorem priorityLoop_spec (events : List ModalityEvent)
    (result : FusionResult) (order : List ModalityType) :
    (∃ pre m post e0 es i, order = pre ++ m :: post ∧
      (∀ m' ∈ pre, modalityNoIntent events m' = true) ∧
      events.filter (fun e => e.modality = m) = e0 :: es ∧
      truthyIntent (extractIntent (bestByConfidence e0 es)) = some i ∧
      priorityLoop events result order =
        { result with decision := some i,
                      confidence := (bestByConfidence e0 es).confidence,
                      selectedModality := some m }) ∨
    ((∀ m' ∈ order, modalityNoIntent events m' = true) ∧
      priorityLoop events result order = result) := by
  induction order with
  | nil => exact Or.inr ⟨by simp, rfl⟩
  | cons m rest ih =>
    cases hf : events.filter (fun e => e.modality = m) with
    | nil =>
      have hm : modalityNoIntent events m = true := by
        simp [modalityNoIntent, hf]
      have hstep : priorityLoop events result (m :: rest)
          = priorityLoop events result rest := by
        simp only [priorityLoop, hf]
      cases ih with
      | inl hex =>
        obtain ⟨pre, m', post, e0, es, i, horder, hpre, hf', hi, hres⟩ := hex
        refine Or.inl ⟨m :: pre, m', post, e0, es, i, by rw [horder, List.cons_append], ?_, hf', hi, ?_⟩
        · intro x hx
          rcases List.mem_cons.mp hx with hx | hx
          · rw [hx]; exact hm
          · exact hpre x hx
        · rw [hstep, hres]
      | inr hno =>
        refine Or.inr ⟨?_, by rw [hstep, hno.2]⟩
        intro x hx
        rcases List.mem_cons.mp hx with hx | hx
        · rw [hx]; exact hm
        · exact hno.1 x hx
    | cons e0 es =>
      cases hti : truthyIntent (extractIntent (bestByConfidence e0 es)) with
      | some i =>
        refine Or.inl ⟨[], m, rest, e0, es, i, rfl, by simp, hf, hti, ?_⟩
        simp only [priorityLoop, hf, hti]
      | none =>
        have hm : modalityNoIntent events m = true := by
          simp [modalityNoIntent, hf, hti]
        have hstep : priorityLoop events result (m :: rest)
            = priorityLoop events result rest := by
          simp only [priorityLoop, hf, hti]
        cases ih with
        | inl hex =>
          obtain ⟨pre, m', post, e0', es', i, horder, hpre, hf', hi, hres⟩ := hex
          refine Or.inl ⟨m :: pre, m', post, e0', es', i,
            by rw [horder, List.cons_append], ?_, hf', hi, ?_⟩
          · intro x hx
            rcases List.mem_cons.mp hx with hx | hx
            · rw [hx]; exact hm
            · exact hpre x hx
          · rw [hstep, hres]
        | inr hno =>
          refine Or.inr ⟨?_, by rw [hstep, hno.2]⟩
          intro x hx
          rcases List.mem_cons.mp hx with hx | hx
          · rw [hx]; exact hm
          · exact hno.1 x hx

/-- The scenario-B trigger: gaze deviated right, confidence 0.9. -/
def scenBGaze : ModalityEvent :=
  { event_type := EventType.GAZE_CHANGED, modality := ModalityType.GAZE,
    timestamp := 0, confidence := 9/10, data := [("state", "right")] }

/-- The scenario-B speech-intent event: `attention_confirm`, 0.8. -/
def scenBIntent : ModalityEvent :=
  { event_type := EventType.INTENT_CLASSIFIED, modality := ModalityType.AUDIO,
    timestamp := 0, confidence := 8/10, data := [("intent", "attention_confirm")] }

/-- The conflicting scenario-B gesture: thumbs down, 0.7. -/
def scenBGesture : ModalityEvent :=
  { event_type := EventType.GESTURE_DETECTED, modality := ModalityType.GESTURE,
    timestamp := 0, confidence := 7/10, data := [("gesture", "thumbs_down")] }

/-- C4 amended: priority-based fusion selects the first modality of the
priority order that is present *and* whose highest-confidence event yields a
truthy intent, taking that intent and that event's confidence; modalities
earlier in the order whose best event yields no intent are skipped (when no
modality yields one, the result is unchanged).  In particular, in scenario B
the conflicting audio (`attention_confirm`, 0.8) and gesture (thumbs down →
`"reject"`, 0.7) resolve to the audio-derived intent, not the gesture's. -/
theorem c4_priority_based_amended :
    (∀ (events : List ModalityEvent) (r : FusionRule) (result : FusionResult),
      (∃ pre m post e0 es i, r.priority_order = pre ++ m :: post ∧
        (∀ m' ∈ pre, modalityNoIntent events m' = true) ∧
        events.filter (fun e => e.modality = m) = e0 :: es ∧
        truthyIntent (extractIntent (bestByConfidence e0 es)) = some i ∧
        priorityBasedFusion events r result =
          { result with decision := some i,
                        confidence := (bestByConfidence e0 es).confidence,
                        selectedModality := some m }) ∨
      ((∀ m' ∈ r.priority_order, modalityNoIntent events m' = true) ∧
        priorityBasedFusion events r result = result)) ∧
    ((performFusion [scenBGaze, scenBIntent, scenBGesture]
        distractionRule).decision = truthyIntent (extractIntent scenBIntent) ∧
     (performFusion [scenBGaze, scenBIntent, scenBGesture]
        distractionRule).decision = some "attention_confirm" ∧
     truthyIntent (extractIntent scenBGesture) = some "reject" ∧
     (performFusion [scenBGaze, scenBIntent, scenBGesture]
        distractionRule).selectedModality = some ModalityType.AUDIO ∧
     (performFusion [scenBGaze, scenBIntent, scenBGesture]
        distractionRule).confidence = 8/10) := by
  constructor
  · intro events r result
    exact priorityLoop_spec events result r.priority_order
  · refine ⟨?_, ?_, ?_, ?_, ?_⟩ <;> with_unfolding_all decide

/-! ### C2 -/

/-- C2: fusion is gated on the time window and the modality sets.  The
candidate event set is exactly the session events within the rule's time
window of now; `_can_perform_fusion` holds precisely when that subset covers
all required modalities and (when the optional list is non-empty) at least
one optional modality; and `_check_fusion_completion` performs no fusion
when the gate fails, while a passing gate fuses exactly the windowed
subset. -/
theorem c2_fusion_gating (st : SysState) (now : ℚ) :
    ∀ s, st.currentSession = some s →
      let rule := fusionRules s.scenario
      let recent := eventsInWindow s rule.time_window now
      (∀ e, e ∈ recent ↔
        (e ∈ s.received_events ∧ now - e.timestamp ≤ rule.time_window)) ∧
      (canPerformFusion recent rule = true ↔
        ((∀ m ∈ rule.required_modalities, ∃ e ∈ recent, e.modality = m) ∧
         (rule.optional_modalities ≠ [] →
           ∃ m ∈ rule.optional_modalities, ∃ e ∈ recent, e.modality = m))) ∧
      (canPerformFusion recent rule = false →
        checkFusionCompletion now st = st) ∧
      (canPerformFusion recent rule = true →
        checkFusionCompletion now st =
          handleFusionResult (performFusion recent rule) s now st) := by
  intro s hs
  refine ⟨?_, ?_, ?_, ?_⟩
  · intro e
    simp [eventsInWindow, List.mem_filter]
  · constructor
    · intro hc
      rw [canPerformFusion, Bool.and_eq_true, Bool.or_eq_true] at hc
      obtain ⟨hreq, hopt⟩ := hc
      constructor
      · intro m hm
        have := List.all_eq_true.mp hreq m hm
        rcases List.mem_map.mp (List.elem_iff.mp this) with ⟨e, he, hme⟩
        exact ⟨e, he, hme⟩
      · intro hne
        rcases hopt with hempty | hany
        · exact absurd (List.isEmpty_iff.mp hempty) hne
        · rcases List.any_eq_true.mp hany with ⟨m, hm, hmem⟩
          rcases List.mem_map.mp (List.elem_iff.mp hmem) with ⟨e, he, hme⟩
          exact ⟨m, hm, e, he, hme⟩
    · intro ⟨hreq, hopt⟩
      rw [canPerformFusion, Bool.and_eq_true, Bool.or_eq_true]
      constructor
      · rw [List.all_eq_true]
        intro m hm
        rcases hreq m hm with ⟨e, he, hme⟩
        exact List.elem_iff.mpr (List.mem_map.mpr ⟨e, he, hme⟩)
      · by_cases hne : (fusionRules s.scenario).optional_modalities = []
        · exact Or.inl (List.isEmpty_iff.mpr hne)
        · rcases hopt hne with ⟨m, hm, e, he, hme⟩
          exact Or.inr (List.any_eq_true.mpr
            ⟨m, hm, List.elem_iff.mpr (List.mem_map.mpr ⟨e, he, hme⟩)⟩)
  · intro hc
    simp only [checkFusionCompletion, hs, hc]
    simp
  · intro hc
    simp only [checkFusionCompletion, hs, hc]
    simp

/-- C2 witness: a distraction session holding one in-window gaze event and
one audio event passes the gate; the same session with only the gaze event
fails it (no optional modality yet) and fusion is a no-op. -/
def c2Session : InteractionSession :=
  { session_id := 0, scenario := InteractionScenario.DISTRACTION_ALERT,
    start_time := 0, state := SystemState.WAITING_RESPONSE,
    expected_modalities := [ModalityType.AUDIO, ModalityType.GESTURE],
    received_events := [scenAGaze], timeout := 15, metadata := {} }

/-- The state holding `c2Session` (gaze event only: required modality is
present but no optional one). -/
def c2State : SysState :=
  { currentState := SystemState.WAITING_RESPONSE,
    currentSession := some c2Session, sessionHistory := [], nextId := 1,
    interactionLog := [], published := [] }

/-- C2 witness: with only the gaze event received, the gate fails and the
completion check leaves the state untouched. -/
theorem c2_fusion_gating_witness :
    checkFusionCompletion 0 c2State = c2State :=
  ((c2_fusion_gating c2State 0) c2Session rfl).2.2.1 (by with_unfolding_all rfl)

/-! ### C7 -/

theorem busRun_append {S : Type} (xs ys : List (BusHandler S))
    (e : ModalityEvent) (s : S) :
    busRun (xs ++ ys) e s
      = ((busRun ys e (busRun xs e s).1).1,
         (busRun xs e s).2 ++ (busRun ys e (busRun xs e s).1).2) := by
  induction xs generalizing s with
  | nil => simp [busRun]
  | cons h hs ih => simp [busRun, ih]

theorem busRun_length {S : Type} (hs : List (BusHandler S))
    (e : ModalityEvent) (s : S) :
    (busRun hs e s).2.length = hs.length := by
  induction hs generalizing s with
  | nil => rfl
  | cons h t ih => simp [busRun, ih]

/-- C7: `publish` appends the event to the bounded FIFO history — dropping
the oldest entry exactly when the history would exceed the capacity of 1000
— and then invokes every handler subscribed to the event's type, in
registration order; one (possibly caught-exception) outcome is recorded per
subscribed handler, and after any prefix of handlers (raising or not) the
remaining handlers still run. -/
theorem c7_publish_spec {S : Type} (b : EventBus S) (e : ModalityEvent)
    (s : S) :
    (b.event_history.length < maxHistoryCap →
      (publish b e s).1.event_history = b.event_history ++ [e]) ∧
    (b.event_history.length ≥ maxHistoryCap →
      (publish b e s).1.event_history = (b.event_history ++ [e]).tail) ∧
    (b.event_history.length ≤ maxHistoryCap →
      (publish b e s).1.event_history.length ≤ maxHistoryCap) ∧
    ((publish b e s).2.2.length = (subscribersFor b e.event_type).length) ∧
    (∀ xs ys, subscribersFor b e.event_type = xs ++ ys →
      (publish b e s).2.1 = (busRun ys e (busRun xs e s).1).1) := by
  have hlen : (b.event_history ++ [e]).length = b.event_history.length + 1 := by
    simp
  refine ⟨?_, ?_, ?_, ?_, ?_⟩
  · intro h
    have : ¬(b.event_history ++ [e]).length > maxHistoryCap := by
      rw [hlen]; omega
    simp only [publish, this, if_neg, not_false_iff]
  · intro h
    have : (b.event_history ++ [e]).length > maxHistoryCap := by
      rw [hlen]; unfold maxHistoryCap at h ⊢; omega
    simp only [publish, this, if_pos]
  · intro h
    by_cases hgt : (b.event_history ++ [e]).length > maxHistoryCap
    · simp only [publish, hgt, if_pos]
      rw [List.length_tail, hlen]
      omega
    · simp only [publish, hgt, if_neg, not_false_iff]
      rw [hlen]
      unfold maxHistoryCap at hgt ⊢
      omega
  · exact busRun_length _ e s
  · intro xs ys h
    show (busRun (subscribersFor b e.event_type) e s).1 = _
    rw [h, busRun_append]

/-- A handler that raises after incrementing the state. -/
def c7Raiser : BusHandler Nat :=
  { run := fun _ n => (n + 1, some "boom") }

/-- A handler that multiplies the state by ten and returns normally. -/
def c7Multiplier : BusHandler Nat :=
  { run := fun _ n => (n * 10, none) }

/-- A bus with both handlers subscribed to gaze changes. -/
def c7Bus : EventBus Nat :=
  { subscribers := [(EventType.GAZE_CHANGED, c7Raiser),
                    (EventType.GAZE_CHANGED, c7Multiplier)],
    event_history := [] }

/-- C7 witness: the first handler raises, yet the second still runs
((0 + 1) * 10 = 10), both outcomes are recorded, and the event lands in the
history. -/
theorem c7_publish_spec_witness :
    (publish c7Bus scenAGaze 0).1.event_history = [scenAGaze] ∧
    (publish c7Bus scenAGaze 0).2.1 = 10 ∧
    (publish c7Bus scenAGaze 0).2.2 = [some "boom", none] :=
  ⟨(c7_publish_spec c7Bus scenAGaze 0).1 (by decide), rfl, rfl⟩

/-! ### C9 -/

theorem argmaxScore_mem (p0 : String × ℚ) (ps : List (String × ℚ)) :
    argmaxScore p0 ps ∈ p0 :: ps := by
  induction ps generalizing p0 with
  | nil => simp [argmaxScore]
  | cons q qs ih =>
    have step : argmaxScore p0 (q :: qs)
        = argmaxScore (if q.2 > p0.2 then q else p0) qs := rfl
    rw [step]
    rcases List.mem_cons.mp (ih (if q.2 > p0.2 then q else p0)) with h | h
    · rw [h]
      split
      · exact List.mem_cons_of_mem _ (List.mem_cons_self _ _)
      · exact List.mem_cons_self _ _
    · exact List.mem_cons_of_mem _ (List.mem_cons_of_mem _ h)

theorem argmaxScore_ge (p0 : String × ℚ) (ps : List (String × ℚ)) :
    ∀ p ∈ p0 :: ps, p.2 ≤ (argmaxScore p0 ps).2 := by
  induction ps generalizing p0 with
  | nil =>
    intro p hp
    rcases List.mem_cons.mp hp with h | h
    · rw [h]
      exact le_refl _
    · simp at h
  | cons q qs ih =>
    intro p hp
    have step : argmaxScore p0 (q :: qs)
        = argmaxScore (if q.2 > p0.2 then q else p0) qs := rfl
    rw [step]
    have hbase : p.2 ≤ (if q.2 > p0.2 then q else p0).2 ∨ p ∈ qs := by
      rcases List.mem_cons.mp hp with h | h
      · left
        rw [h]
        split
        · next hgt => exact le_of_lt hgt
        · exact le_refl _
      · rcases List.mem_cons.mp h with h | h
        · left
          rw [h]
          split
          · exact le_refl _
          · next hng => exact le_of_not_lt hng
        · right; exact h
    rcases hbase with h | h
    · exact le_trans h (ih _ _ (List.mem_cons_self _ _))
    · exact ih _ _ (List.mem_cons_of_mem _ h)

/-- `rule.modality_weights.get(modality, 1.0)` is positive when every listed
weight is (the fallback is 1). -/
theorem weightOf_pos (r : FusionRule) (m : ModalityType)
    (hw : ∀ p ∈ r.modality_weights, 0 < p.2) : 0 < weightOf r m := by
  unfold weightOf
  cases hf : r.modality_weights.find? (fun p => p.1 = m) with
  | none => norm_num
  | some p => exact hw p (List.mem_of_find?_eq_some hf)

theorem addScore_bounds (scores : List (String × ℚ)) (i : String)
    (v T W : ℚ) (hsc : ∀ p ∈ scores, 0 ≤ p.2 ∧ p.2 ≤ T)
    (hv0 : 0 ≤ v) (hvW : v ≤ W) (hT : 0 ≤ T) (hW : 0 ≤ W) :
    ∀ p ∈ addScore scores i v, 0 ≤ p.2 ∧ p.2 ≤ T + W := by
  unfold addScore
  split
  · intro p hp
    rcases List.mem_map.mp hp with ⟨q, hq, hfq⟩
    rcases hsc q hq with ⟨hq0, hqT⟩
    by_cases hqi : q.1 = i
    · rw [if_pos hqi] at hfq
      rw [← hfq]
      constructor
      · exact add_nonneg hq0 hv0
      · exact add_le_add hqT hvW
    · rw [if_neg hqi] at hfq
      rw [← hfq]
      exact ⟨hq0, le_trans hqT (by linarith)⟩
  · intro p hp
    rcases List.mem_append.mp hp with h | h
    · rcases hsc p h with ⟨h0, hT'⟩
      exact ⟨h0, le_trans hT' (by linarith)⟩
    · rcases List.mem_singleton.mp h with rfl
      exact ⟨hv0, by linarith⟩

/-- The loop invariant of `_confidence_weighted_fusion`: every accumulated
score is non-negative and bounded by the total weight, the total weight is
non-negative, and it is positive as soon as one score exists. -/
def scoresInv (acc : List (String × ℚ) × ℚ) : Prop :=
  (∀ p ∈ acc.1, 0 ≤ p.2 ∧ p.2 ≤ acc.2) ∧ 0 ≤ acc.2 ∧
    (acc.1 ≠ [] → 0 < acc.2)

theorem weightedStep_inv (r : FusionRule) (e : ModalityEvent)
    (hw : ∀ p ∈ r.modality_weights, 0 < p.2)
    (he : 0 ≤ e.confidence ∧ e.confidence ≤ 1)
    (acc : List (String × ℚ) × ℚ) (hacc : scoresInv acc) :
    scoresInv (weightedStep r acc e) := by
  unfold weightedStep
  cases truthyIntent (extractIntent e) with
  | none => exact hacc
  | some i =>
    have hwp := weightOf_pos r e.modality hw
    obtain ⟨hsc, hT, _⟩ := hacc
    refine ⟨?_, ?_, ?_⟩
    · show ∀ p ∈ addScore acc.1 i (weightOf r e.modality * e.confidence),
        0 ≤ p.2 ∧ p.2 ≤ acc.2 + weightOf r e.modality
      exact addScore_bounds acc.1 i _ acc.2 (weightOf r e.modality) hsc
        (mul_nonneg (le_of_lt hwp) he.1)
        (mul_le_of_le_one_right (le_of_lt hwp) he.2) hT (le_of_lt hwp)
    · show 0 ≤ acc.2 + weightOf r e.modality
      linarith
    · intro _
      show 0 < acc.2 + weightOf r e.modality
      linarith

theorem weightedScores_inv (r : FusionRule)
    (hw : ∀ p ∈ r.modality_weights, 0 < p.2) :
    ∀ (events : List ModalityEvent),
      (∀ e ∈ events, 0 ≤ e.confidence ∧ e.confidence ≤ 1) →
      ∀ acc, scoresInv acc → scoresInv (events.foldl (weightedStep r) acc) := by
  intro events
  induction events with
  | nil => intro _ acc hacc; exact hacc
  | cons e rest ih =>
    intro hconf acc hacc
    rw [List.foldl_cons]
    exact ih (fun x hx => hconf x (List.mem_cons_of_mem _ hx)) _
      (weightedStep_inv r e hw (hconf e (List.mem_cons_self _ _)) acc hacc)

theorem confidenceWeightedFusion_nil (events : List ModalityEvent)
    (r : FusionRule) (result : FusionResult) (totalWeight : ℚ)
    (hws : weightedScores events r = ([], totalWeight)) :
    confidenceWeightedFusion events r result = result := by
  unfold confidenceWeightedFusion
  rw [hws]

theorem confidenceWeightedFusion_cons (events : List ModalityEvent)
    (r : FusionRule) (result : FusionResult) (p0 : String × ℚ)
    (ps : List (String × ℚ)) (totalWeight : ℚ)
    (hws : weightedScores events r = (p0 :: ps, totalWeight))
    (htw : 0 < totalWeight) :
    confidenceWeightedFusion events r result =
      { result with
        decision := some (argmaxScore (p0.1, p0.2 / totalWeight)
          (ps.map (fun p => (p.1, p.2 / totalWeight)))).1
        confidence := (argmaxScore (p0.1, p0.2 / totalWeight)
          (ps.map (fun p => (p.1, p.2 / totalWeight)))).2
        scores := (p0.1, p0.2 / totalWeight)
          :: ps.map (fun p => (p.1, p.2 / totalWeight)) } := by
  unfold confidenceWeightedFusion
  rw [hws]
  simp only [gt_iff_lt, htw, if_pos]

/-- C9: for every event list with confidences in `[0,1]` and positive
modality weights, confidence-weighted fusion — accumulate
`weight × confidence` per intent, normalize by the total weight, decide for
the arg-max intent — yields a confidence that is non-negative, at most 1,
and at least every normalized score (the arg-max property). -/
theorem c9_weighted_confidence_bounds (events : List ModalityEvent)
    (r : FusionRule)
    (hstrat : r.fusion_strategy = FusionStrategy.CONFIDENCE_WEIGHTED)
    (hconf : ∀ e ∈ events, 0 ≤ e.confidence ∧ e.confidence ≤ 1)
    (hw : ∀ p ∈ r.modality_weights, 0 < p.2) :
    0 ≤ (performFusion events r).confidence ∧
    (performFusion events r).confidence ≤ 1 ∧
    (∀ q ∈ (performFusion events r).scores,
      q.2 ≤ (performFusion events r).confidence) := by
  have hperf : performFusion events r
      = confidenceWeightedFusion events r
          { strategy := r.fusion_strategy
            events_count := events.length
            modalities := uniqModalities (events.map (fun e => e.modality))
            confidence := 0
            decision := none
            selectedModality := none
            scores := [] } := by
    unfold performFusion
    rw [hstrat]
  rw [hperf]
  have hinv : scoresInv (weightedScores events r) :=
    weightedScores_inv r hw events hconf ([], 0)
      ⟨by simp, le_refl 0, fun h => absurd rfl h⟩
  cases hws : weightedScores events r with
  | mk scores totalWeight =>
    rw [hws] at hinv
    cases scores with
    | nil =>
      rw [confidenceWeightedFusion_nil events r _ totalWeight hws]
      exact ⟨le_refl 0, by norm_num, by simp⟩
    | cons p0 ps =>
      obtain ⟨hsc, hT0, hTpos⟩ := hinv
      have htw : 0 < totalWeight := hTpos (by simp)
      rw [confidenceWeightedFusion_cons events r _ p0 ps totalWeight hws htw]
      refine ⟨?_, ?_, ?_⟩
      · have hmem := argmaxScore_mem (p0.1, p0.2 / totalWeight)
          (ps.map (fun p => (p.1, p.2 / totalWeight)))
        rcases List.mem_cons.mp hmem with h | h
        · rw [h]
          exact div_nonneg (hsc p0 (List.mem_cons_self _ _)).1 (le_of_lt htw)
        · rcases List.mem_map.mp h with ⟨q, hq, hfq⟩
          rw [← hfq]
          exact div_nonneg (hsc q (List.mem_cons_of_mem _ hq)).1 (le_of_lt htw)
      · have hmem := argmaxScore_mem (p0.1, p0.2 / totalWeight)
          (ps.map (fun p => (p.1, p.2 / totalWeight)))
        rcases List.mem_cons.mp hmem with h | h
        · rw [h]
          exact (div_le_one htw).mpr (hsc p0 (List.mem_cons_self _ _)).2
        · rcases List.mem_map.mp h with ⟨q, hq, hfq⟩
          rw [← hfq]
          exact (div_le_one htw).mpr (hsc q (List.mem_cons_of_mem _ hq)).2
      · intro q hq
        exact argmaxScore_ge (p0.1, p0.2 / totalWeight)
          (ps.map (fun p => (p.1, p.2 / totalWeight))) q hq

/-- The scenario-D seed event published by `trigger_voice_command_scenario`
(`打开导航`, confidence 0.9, no intent key). -/
def scenDSpeech : ModalityEvent :=
  { event_type := EventType.SPEECH_RECOGNIZED, modality := ModalityType.AUDIO,
    timestamp := 0, confidence := 9/10,
    data := [("text", "打开导航"), ("command", "打开导航")] }

/-- The scenario-D confirmation gesture `"ok"` (confidence 0.6), carrying
the `intent` key the gesture handler wrote into it. -/
def scenDGesture : ModalityEvent :=
  { event_type := EventType.GESTURE_DETECTED, modality := ModalityType.GESTURE,
    timestamp := 0, confidence := 6/10,
    data := [("gesture", "ok"), ("intent", "confirm")] }

/-- C9 witness (scenario D): fusing the voice-command seed with the `"ok"`
gesture under the confidence-weighted rule yields a decision (`"confirm"`)
with normalized confidence 0.6, within the proved bounds. -/
theorem c9_weighted_confidence_bounds_witness :
    (0 ≤ (performFusion [scenDSpeech, scenDGesture] voiceRule).confidence ∧
     (performFusion [scenDSpeech, scenDGesture] voiceRule).confidence ≤ 1 ∧
     (∀ q ∈ (performFusion [scenDSpeech, scenDGesture] voiceRule).scores,
       q.2 ≤ (performFusion [scenDSpeech, scenDGesture] voiceRule).confidence)) ∧
    (performFusion [scenDSpeech, scenDGesture] voiceRule).decision
      = some "confirm" ∧
    (performFusion [scenDSpeech, scenDGesture] voiceRule).confidence = 3/5 :=
  ⟨c9_weighted_confidence_bounds [scenDSpeech, scenDGesture] voiceRule rfl
      (by with_unfolding_all decide) (by with_unfolding_all decide),
   by with_unfolding_all decide, by with_unfolding_all decide⟩

/-! ### C5 -/

theorem startInteraction_nextId (sc : InteractionScenario)
    (ex : List ModalityType) (t : ℚ) (m : DataMap) (now : ℚ)
    (st : SysState) :
    (startInteraction sc ex t m now st).2.nextId = st.nextId + 1 := by
  unfold startInteraction
  by_cases h : st.currentSession.isSome <;>
    simp [h, changeState, endCurrentSession_nextId]

theorem triggerDistraction_nextId_of_idle (t : ModalityEvent) (now : ℚ)
    (st : SysState) (h : st.currentState = SystemState.IDLE) :
    (triggerDistraction t now st).nextId = st.nextId + 1 := by
  unfold triggerDistraction
  rw [if_neg (by simp [h])]
  show (startInteraction InteractionScenario.DISTRACTION_ALERT
      [ModalityType.AUDIO, ModalityType.GESTURE] 15
      (match dataGet t.data "state" with
        | some s => [("trigger_gaze_state", s)]
        | none => []) now st).2.nextId = st.nextId + 1
  exact startInteraction_nextId _ _ _ _ now st

theorem triggerDistraction_of_not_idle (t : ModalityEvent) (now : ℚ)
    (st : SysState) (h : st.currentState ≠ SystemState.IDLE) :
    triggerDistraction t now st = st := by
  unfold triggerDistraction
  rw [if_pos h]

theorem handleFusionResult_session_loc (fr : FusionResult)
    (s : InteractionSession) (now : ℚ) (st : SysState)
    (h : st.currentSession = some s) :
    (handleFusionResult fr s now st).currentSession = some s ∨
    ∃ s', (handleFusionResult fr s now st).sessionHistory.getLast? = some s' ∧
      s'.session_id = s.session_id ∧
      s'.received_events = s.received_events := by
  unfold handleFusionResult
  by_cases hd : fr.decision = some "confirm" ∨ fr.decision = some "attention"
  · right
    refine ⟨endedSession s "attention_confirmed" now, ?_, rfl, rfl⟩
    simp only [hd, if_pos]
    have hlast := endCurrentSession_getLast "attention_confirmed" now
      { st with
        interactionLog := st.interactionLog ++
          [{ session_id := s.session_id, scenario := s.scenario,
             fusion_result := fr }]
        published := st.published ++
          [{ event_type := EventType.ATTENTION_CONFIRMED
             modality := ModalityType.VISION
             timestamp := now
             confidence := fr.confidence
             data := [("decision", (fr.decision).getD "")]
             session_id := some s.session_id }] } s h
    split
    · exact hlast
    · exact hlast
  · left
    simp only [hd, if_neg, not_false_iff]
    split
    · exact h
    · exact h

theorem checkFusionCompletion_session_loc (now : ℚ) (st : SysState)
    (s : InteractionSession) (h : st.currentSession = some s) :
    (checkFusionCompletion now st).currentSession = some s ∨
    ∃ s', (checkFusionCompletion now st).sessionHistory.getLast? = some s' ∧
      s'.session_id = s.session_id ∧
      s'.received_events = s.received_events := by
  unfold checkFusionCompletion
  simp only [h]
  split
  · exact handleFusionResult_session_loc _ s now st h
  · exact Or.inl h

/-- A gaze event whose state is `"blink"`, as the repository's gaze
trackers report during prolonged eye closure (`GazeTracking-master`
demos). -/
def blinkGaze : ModalityEvent :=
  { event_type := EventType.GAZE_CHANGED, modality := ModalityType.GAZE,
    timestamp := 0, confidence := 9/10, data := [("state", "blink")] }

/-- C5 counterexample: a gaze event whose direction is `"blink"` — not
`"center"` — arriving with no session active does *not* trigger
`startInteraction`: the handler only reacts to `"left"`/`"right"`, so no
session is started and the system stays `IDLE`. -/
theorem c5_gaze_trigger_counterexample :
    dataGet blinkGaze.data "state" = some "blink" ∧
    dataGet blinkGaze.data "state" ≠ some "center" ∧
    initState.currentSession = none ∧
    (handleGazeEvent blinkGaze 0 initState).nextId = initState.nextId ∧
    (handleGazeEvent blinkGaze 0 initState).currentSession = none ∧
    (handleGazeEvent blinkGaze 0 initState).currentState
      = SystemState.IDLE := by
  with_unfolding_all decide

/-- C5 amended: under the coupling invariant, handling a gaze event starts
a new distraction-alert session (observable: the session-id counter
increments) iff the gaze state is `"left"` or `"right"` *and* no session is
active; while a session is open such events never start a second session,
and (when the open session is unexpired) the event is only appended to that
session, whether it stays current or is archived by a completing fusion. -/
theorem c5_gaze_trigger_amended (e : ModalityEvent) (now : ℚ)
    (st : SysState) (hinv : stateInv st) :
    ((handleGazeEvent e now st).nextId = st.nextId + 1 ↔
      ((dataGet e.data "state" = some "left" ∨
        dataGet e.data "state" = some "right") ∧
       st.currentSession = none)) ∧
    (st.currentSession ≠ none →
      (handleGazeEvent e now st).nextId = st.nextId) ∧
    (∀ s, st.currentSession = some s → isExpired s now = false →
      ∃ s', ((handleGazeEvent e now st).currentSession = some s' ∨
             (handleGazeEvent e now st).sessionHistory.getLast? = some s') ∧
        s'.session_id = s.session_id ∧
        s'.received_events = s.received_events ++ [e]) := by
  have hnid : ∀ st' : SysState,
      (checkFusionCompletion now (addEventToSession e now st').2).nextId
        = st'.nextId := by
    intro st'
    rw [checkFusionCompletion_nextId, addEventToSession_nextId]
  by_cases hcond : dataGet e.data "state" = some "left" ∨
      dataGet e.data "state" = some "right"
  · by_cases hidle : st.currentState = SystemState.IDLE
    · have hnone : st.currentSession = none := hinv.mp hidle
      have hgz : handleGazeEvent e now st
          = checkFusionCompletion now
              (addEventToSession e now (triggerDistraction e now st)).2 := by
        unfold handleGazeEvent
        rw [if_pos hcond]
      refine ⟨?_, ?_, ?_⟩
      · rw [hgz, hnid, triggerDistraction_nextId_of_idle e now st hidle]
        exact iff_of_true rfl ⟨hcond, hnone⟩
      · intro hsome
        exact absurd hnone hsome
      · intro s hs
        rw [hnone] at hs
        exact absurd hs (Option.noConfusion)
    · have htrig := triggerDistraction_of_not_idle e now st hidle
      have hgz : handleGazeEvent e now st
          = checkFusionCompletion now (addEventToSession e now st).2 := by
        unfold handleGazeEvent
        rw [if_pos hcond, htrig]
      have hsome : st.currentSession ≠ none := by
        intro hn
        exact hidle (hinv.mpr hn)
      refine ⟨?_, ?_, ?_⟩
      · rw [hgz, hnid]
        refine iff_of_false (by omega) ?_
        intro ⟨_, hn⟩
        exact hsome hn
      · intro _
        rw [hgz, hnid]
      · intro s hs hx
        rw [hgz]
        have hadd : addEventToSession e now st = (true, appendedState st s e) :=
          addEventToSession_of_unexpired e now st s hs hx
        rw [hadd]
        have hcur : (appendedState st s e).currentSession
            = some { s with received_events := s.received_events ++ [e] } := rfl
        rcases checkFusionCompletion_session_loc now (appendedState st s e) _
            hcur with hl | ⟨s', hlast, hid, hev⟩
        · exact ⟨{ s with received_events := s.received_events ++ [e] },
            Or.inl hl, rfl, rfl⟩
        · exact ⟨s', Or.inr hlast, hid, hev⟩
  · have hgz : handleGazeEvent e now st
        = checkFusionCompletion now (addEventToSession e now st).2 := by
      unfold handleGazeEvent
      rw [if_neg hcond]
    refine ⟨?_, ?_, ?_⟩
    · rw [hgz, hnid]
      refine iff_of_false (by omega) ?_
      intro ⟨hc, _⟩
      exact hcond hc
    · intro _
      rw [hgz, hnid]
    · intro s hs hx
      rw [hgz]
      have hadd : addEventToSession e now st = (true, appendedState st s e) :=
        addEventToSession_of_unexpired e now st s hs hx
      rw [hadd]
      have hcur : (appendedState st s e).currentSession
          = some { s with received_events := s.received_events ++ [e] } := rfl
      rcases checkFusionCompletion_session_loc now (appendedState st s e) _
          hcur with hl | ⟨s', hlast, hid, hev⟩
      · exact ⟨{ s with received_events := s.received_events ++ [e] },
          Or.inl hl, rfl, rfl⟩
      · exact ⟨s', Or.inr hlast, hid, hev⟩

/-- C5 witness: a left-deviation gaze event in the idle initial state does
start a session (the id counter increments). -/
theorem c5_gaze_trigger_amended_witness :
    (handleGazeEvent scenAGaze 0 initState).nextId = initState.nextId + 1 :=
  (c5_gaze_trigger_amended scenAGaze 0 initState (by decide)).1.mpr
    ⟨Or.inl (by decide), rfl⟩

end Fusion
